import Mathlib

/-!
Shallow embedding of the `llm-spend` package (pricing, tracker, store) and
verification of its specification claims.

Conventions of the embedding:
* Python `float` values are modelled as `ℚ` (all pricing constants and the
  claimed cost values are exactly representable in binary floating point, so
  the rational model agrees with the float computation on every claim).
* Python `int` is modelled as `ℤ`.
* UTC timestamps are modelled as rational numbers measured in days
  (`datetime.now()` is passed in explicitly as a `now` parameter); the
  ISO-string comparisons performed by SQLite are order-isomorphic to the
  numeric comparisons used here.
* Python exceptions are modelled with `Except`.
* `None`-able values are modelled with `Option`.
-/

namespace LlmSpend

/-- Descending comparison by a projection; `descBy f a b` means `a` sorts no
later than `b` when ordering by `f` descending.  `List.insertionSort (descBy f)`
is a stable descending sort, matching both Python's `sorted(key=f, reverse=True)`
and SQLite's `ORDER BY f DESC`. -/
def descBy {α β : Type} [LinearOrder β] (f : α → β) (a b : α) : Prop :=
  f b ≤ f a

instance {α β : Type} [LinearOrder β] (f : α → β) : DecidableRel (descBy f) :=
  fun a b => inferInstanceAs (Decidable (f b ≤ f a))

instance {α β : Type} [LinearOrder β] (f : α → β) : IsTotal α (descBy f) :=
  ⟨fun a b => le_total (f b) (f a)⟩

instance {α β : Type} [LinearOrder β] (f : α → β) : IsTrans α (descBy f) :=
  ⟨fun _ _ _ h1 h2 => le_trans h2 h1⟩

/-- Python's substring test `needle in hay` on character lists. -/
def charsContains (needle : List Char) : List Char → Bool
  | [] => needle.isEmpty
  | c :: t => needle.isPrefixOf (c :: t) || charsContains needle t

/-- Python's `a in b` for strings: `a` is a contiguous substring of `b`. -/
def py_in (a b : String) : Bool :=
  charsContains a.data b.data

-- ------------------------------------------------------------------
-- pricing.py
-- ------------------------------------------------------------------

/-- One value of the `PRICING` dict: per-million-token prices. -/
structure PriceEntry where
  input : ℚ
  output : ℚ
deriving DecidableEq

/-- `PRICING`: the static pricing table, in source order. -/
def PRICING : List (String × PriceEntry) :=
  [ ("claude-3-5-sonnet-20241022", ⟨3.00, 15.00⟩),
    ("claude-3-5-haiku-20241022", ⟨0.80, 4.00⟩),
    ("claude-opus-4", ⟨15.00, 75.00⟩),
    ("claude-sonnet-4", ⟨3.00, 15.00⟩),
    ("gpt-4o", ⟨2.50, 10.00⟩),
    ("gpt-4o-mini", ⟨0.15, 0.60⟩),
    ("gpt-4-turbo", ⟨10.00, 30.00⟩),
    ("o1", ⟨15.00, 60.00⟩),
    ("o1-mini", ⟨3.00, 12.00⟩),
    ("gemini-1.5-pro", ⟨1.25, 5.00⟩),
    ("gemini-1.5-flash", ⟨0.075, 0.30⟩),
    ("gemini-2.0-flash", ⟨0.10, 0.40⟩) ]

/-- Dict lookup `PRICING[model]` / `model in PRICING`. -/
def pricingLookup (m : String) : Option PriceEntry :=
  (PRICING.find? (fun kv => kv.1 == m)).map (fun kv => kv.2)

/-- `_SORTED_MODELS = sorted(PRICING.keys(), key=len, reverse=True)`;
Python's sort and `List.insertionSort` are both stable, so ties keep
table order in both. -/
def SORTED_MODELS : List String :=
  List.insertionSort (descBy String.length) (PRICING.map Prod.fst)

/-- `get_model_pricing`: exact match, then longest known model contained in
the given name, then longest known model containing the given name, else
absent (the empty dict `\x7b\x7d` is modelled as `none`). -/
def get_model_pricing (model : String) : Option PriceEntry :=
  match pricingLookup model with
  | some p => some p
  | none =>
    match SORTED_MODELS.find? (fun known => py_in known model) with
    | some k => pricingLookup k
    | none =>
      match SORTED_MODELS.find? (fun known => py_in model known) with
      | some k => pricingLookup k
      | none => none

/-- `calculate_cost`: cost in USD for a model and token counts. -/
def calculate_cost (model : String) (input_tokens output_tokens : ℤ) : ℚ :=
  match get_model_pricing model with
  | none => 0
  | some p =>
    (input_tokens : ℚ) / 1000000 * p.input + (output_tokens : ℚ) / 1000000 * p.output

/-- `detect_provider`: prefix classification of the model name. -/
def detect_provider (model : String) : String :=
  let m := model.toLower
  if m.startsWith "claude" then "anthropic"
  else if m.startsWith "gpt-" || m.startsWith "o1" || m.startsWith "o3" then "openai"
  else if m.startsWith "gemini" then "google"
  else "unknown"

-- ------------------------------------------------------------------
-- store.py
-- ------------------------------------------------------------------

/-- One row of the `calls` table. -/
structure CallRecord where
  id : Nat
  timestamp : ℚ
  provider : String
  model : String
  label : Option String
  file : Option String
  function : Option String
  input_tokens : ℤ
  output_tokens : ℤ
  cost_usd : ℚ
  duration_ms : ℚ
  metadata_json : Option String
deriving DecidableEq

/-- The SQLite-backed store: the `calls` table plus the `AUTOINCREMENT`
sequence (which survives deletions). -/
structure SpendStore where
  nextId : Nat
  calls : List CallRecord
deriving DecidableEq

/-- A Python metadata dict as `log_call` sees it: whether it is truthy
(non-empty), and what `json.dumps` does on it (a JSON string, or a raised
`TypeError` modelled as `Except.error`). -/
structure MetaMap where
  nonempty : Bool
  dumps : Except Unit String

/-- `metadata_json = json.dumps(metadata) if metadata else None` —
`json.dumps` is only invoked (and can only raise) when `metadata` is a
non-`None`, non-empty dict. -/
def serialize_metadata : Option MetaMap → Except Unit (Option String)
  | none => Except.ok none
  | some m => if m.nonempty then m.dumps.map some else Except.ok none

/-- The `INSERT INTO calls ... ; return cursor.lastrowid` part of
`log_call`, after metadata serialization has produced `mj`. -/
def insertRecord (now : ℚ) (provider model : String)
    (label file function : Option String) (input_tokens output_tokens : ℤ)
    (cost_usd duration_ms : ℚ) (mj : Option String) (s : SpendStore) :
    SpendStore × Nat :=
  let r : CallRecord :=
    ⟨s.nextId, now, provider, model, label, file, function,
      input_tokens, output_tokens, cost_usd, duration_ms, mj⟩
  (⟨s.nextId + 1, s.calls ++ [r]⟩, s.nextId)

/-- `SpendStore.log_call`: serialize the metadata (a raised serialization
error aborts the whole call), then insert the record and return its id. -/
def log_call (now : ℚ) (provider model : String)
    (label file function : Option String) (input_tokens output_tokens : ℤ)
    (cost_usd duration_ms : ℚ) (metadata : Option MetaMap) (s : SpendStore) :
    Except Unit (SpendStore × Nat) :=
  match serialize_metadata metadata with
  | Except.error e => Except.error e
  | Except.ok mj =>
    Except.ok (insertRecord now provider model label file function
      input_tokens output_tokens cost_usd duration_ms mj s)

/-- `SpendStore._cutoff`: `now - timedelta(days=days)`, in day units. -/
def cutoffTime (now : ℚ) (days : ℤ) : ℚ := now - days

/-- The `WHERE timestamp >= cutoff` filter shared by every read query. -/
def recentCalls (now : ℚ) (days : ℤ) (s : SpendStore) : List CallRecord :=
  s.calls.filter (fun r => decide (cutoffTime now days ≤ r.timestamp))

/-- Result row of `get_total`. -/
structure Totals where
  total_cost : ℚ
  total_input : ℤ
  total_output : ℤ
  total_calls : Nat
deriving DecidableEq

/-- `SpendStore.get_total`: window filter, `COALESCE(SUM(...), 0)` columns
and `COUNT(*)`. -/
def get_total (now : ℚ) (days : ℤ) (s : SpendStore) : Totals :=
  let recent := recentCalls now days s
  ⟨(recent.map (fun r => r.cost_usd)).sum,
    (recent.map (fun r => r.input_tokens)).sum,
    (recent.map (fun r => r.output_tokens)).sum,
    recent.length⟩

/-- Output row of `get_by_file` (`COALESCE(file, '(unknown)')` applied). -/
structure FileRow where
  file : String
  calls : Nat
  input_tokens : ℤ
  output_tokens : ℤ
  cost_usd : ℚ
deriving DecidableEq

/-- Aggregate one `GROUP BY file` group (key is the raw, possibly-NULL
column value; the sentinel is applied in the SELECT). -/
def mkFileRow (k : Option String) (grp : List CallRecord) : FileRow :=
  ⟨k.getD "(unknown)", grp.length,
    (grp.map (fun r => r.input_tokens)).sum,
    (grp.map (fun r => r.output_tokens)).sum,
    (grp.map (fun r => r.cost_usd)).sum⟩

/-- `SpendStore.get_by_file`: window filter, `GROUP BY file`,
`ORDER BY cost_usd DESC`. -/
def get_by_file (now : ℚ) (days : ℤ) (s : SpendStore) : List FileRow :=
  let recent := recentCalls now days s
  let keys := (recent.map (fun r => r.file)).dedup
  List.insertionSort (descBy FileRow.cost_usd)
    (keys.map (fun k => mkFileRow k (recent.filter (fun r => decide (r.file = k)))))

/-- Output row of `get_by_function` (sentinels applied). -/
structure FunctionRow where
  function : String
  file : String
  calls : Nat
  input_tokens : ℤ
  output_tokens : ℤ
  cost_usd : ℚ
deriving DecidableEq

/-- Aggregate one `GROUP BY function, file` group. -/
def mkFunctionRow (k : Option String × Option String) (grp : List CallRecord) :
    FunctionRow :=
  ⟨k.1.getD "(unknown)", k.2.getD "(unknown)", grp.length,
    (grp.map (fun r => r.input_tokens)).sum,
    (grp.map (fun r => r.output_tokens)).sum,
    (grp.map (fun r => r.cost_usd)).sum⟩

/-- The `(function, file)` grouping key of `get_by_function`. -/
def funcKey (r : CallRecord) : Option String × Option String :=
  (r.function, r.file)

/-- `SpendStore.get_by_function`: window filter, `GROUP BY function, file`,
`ORDER BY cost_usd DESC`. -/
def get_by_function (now : ℚ) (days : ℤ) (s : SpendStore) : List FunctionRow :=
  let recent := recentCalls now days s
  let keys := (recent.map funcKey).dedup
  List.insertionSort (descBy FunctionRow.cost_usd)
    (keys.map (fun k => mkFunctionRow k (recent.filter (fun r => decide (funcKey r = k)))))

/-- Output row of `get_by_label` (`COALESCE(label, '(unlabeled)')`). -/
structure LabelRow where
  label : String
  calls : Nat
  input_tokens : ℤ
  output_tokens : ℤ
  cost_usd : ℚ
deriving DecidableEq

/-- Aggregate one `GROUP BY label` group. -/
def mkLabelRow (k : Option String) (grp : List CallRecord) : LabelRow :=
  ⟨k.getD "(unlabeled)", grp.length,
    (grp.map (fun r => r.input_tokens)).sum,
    (grp.map (fun r => r.output_tokens)).sum,
    (grp.map (fun r => r.cost_usd)).sum⟩

/-- `SpendStore.get_by_label`: window filter, `GROUP BY label`,
`ORDER BY cost_usd DESC`. -/
def get_by_label (now : ℚ) (days : ℤ) (s : SpendStore) : List LabelRow :=
  let recent := recentCalls now days s
  let keys := (recent.map (fun r => r.label)).dedup
  List.insertionSort (descBy LabelRow.cost_usd)
    (keys.map (fun k => mkLabelRow k (recent.filter (fun r => decide (r.label = k)))))

/-- Output row of `get_by_model` (`model` and `provider` are NOT NULL). -/
structure ModelRow where
  model : String
  provider : String
  calls : Nat
  input_tokens : ℤ
  output_tokens : ℤ
  cost_usd : ℚ
deriving DecidableEq

/-- Aggregate one `GROUP BY model, provider` group. -/
def mkModelRow (k : String × String) (grp : List CallRecord) : ModelRow :=
  ⟨k.1, k.2, grp.length,
    (grp.map (fun r => r.input_tokens)).sum,
    (grp.map (fun r => r.output_tokens)).sum,
    (grp.map (fun r => r.cost_usd)).sum⟩

/-- The `(model, provider)` grouping key of `get_by_model`. -/
def modelKey (r : CallRecord) : String × String :=
  (r.model, r.provider)

/-- `SpendStore.get_by_model`: window filter, `GROUP BY model, provider`,
`ORDER BY cost_usd DESC`. -/
def get_by_model (now : ℚ) (days : ℤ) (s : SpendStore) : List ModelRow :=
  let recent := recentCalls now days s
  let keys := (recent.map modelKey).dedup
  List.insertionSort (descBy ModelRow.cost_usd)
    (keys.map (fun k => mkModelRow k (recent.filter (fun r => decide (modelKey r = k)))))

/-- `SpendStore.get_all_calls`: window filter, `ORDER BY timestamp DESC`. -/
def get_all_calls (now : ℚ) (days : ℤ) (s : SpendStore) : List CallRecord :=
  List.insertionSort (descBy CallRecord.timestamp) (recentCalls now days s)

/-- `SpendStore.clear`: `DELETE FROM calls` (no cutoff) or
`DELETE FROM calls WHERE timestamp < cutoff`; returns the surviving store
and `cursor.rowcount`.  The `AUTOINCREMENT` sequence is not reset. -/
def clear (now : ℚ) (days : Option ℤ) (s : SpendStore) : SpendStore × Nat :=
  match days with
  | none => (⟨s.nextId, []⟩, s.calls.length)
  | some d =>
    (⟨s.nextId, s.calls.filter (fun r => decide (¬ r.timestamp < cutoffTime now d))⟩,
      (s.calls.filter (fun r => decide (r.timestamp < cutoffTime now d))).length)

/-- The CSV header written by `export_csv`: `rows[0].keys()`, i.e. the
`SELECT *` column order of the `calls` table. -/
def exportFields : List String :=
  ["id", "timestamp", "provider", "model", "label", "file", "function",
    "input_tokens", "output_tokens", "cost_usd", "duration_ms", "metadata_json"]

/-- The CSV file written by `export_csv`: one header row, one data row per
exported record. -/
structure CsvFile where
  header : List String
  dataRows : List CallRecord
deriving DecidableEq

/-- `SpendStore.export_csv`: exports `get_all_calls(days=365*10)`.  When the
row set is empty no file is written (`none`) and the count is `0`; otherwise
the file holds the header and the data rows and the count of rows written is
returned. -/
def export_csv (now : ℚ) (s : SpendStore) : Option CsvFile × Nat :=
  let rows := get_all_calls now (365 * 10) s
  if rows.isEmpty then (none, 0)
  else (some ⟨exportFields, rows⟩, rows.length)

/-- `SpendStore.export_json`: dumps `get_all_calls(days=365*10)` and returns
the number of rows written. -/
def export_json (now : ℚ) (s : SpendStore) : List CallRecord × Nat :=
  let rows := get_all_calls now (365 * 10) s
  (rows, rows.length)

-- ------------------------------------------------------------------
-- tracker.py
-- ------------------------------------------------------------------

/-- A probed token field of a `usage` object or dict.  Three states must be
distinguished: the field is absent, present with value `None`, or present
with an integer — because `getattr(u, f, 0)` / `d.get(f, 0)` default an
*absent* field to `0` but pass a present `None` through, which then crashes
`int(...)`. -/
inductive PyField where
  | absent : PyField
  | noneVal : PyField
  | intVal (v : ℤ) : PyField
deriving DecidableEq

/-- `getattr(u, f, None)` / `d.get(f)`: the Python value of the probe, with
`none` standing for Python `None` (from an absent field or a `None`-valued
one alike). -/
def PyField.getOrNone : PyField → Option ℤ
  | PyField.absent => none
  | PyField.noneVal => none
  | PyField.intVal v => some v

/-- `getattr(u, f, 0)` / `d.get(f, 0)`: an absent field defaults to `0`,
but a field present with value `None` still yields Python `None`. -/
def PyField.getOrZero : PyField → Option ℤ
  | PyField.absent => some 0
  | PyField.noneVal => none
  | PyField.intVal v => some v

/-- The attributes of a `usage` object (or the keys of a usage dict). -/
structure UsageObj where
  prompt_tokens : PyField
  completion_tokens : PyField
  input_tokens : PyField
  output_tokens : PyField
deriving DecidableEq

/-- The response shapes `_extract_tokens` / `_extract_model` distinguish:
`None`, an attribute-carrying object, or a dict.  For a dict, `usage = none`
covers both a missing `"usage"` key and a non-dict `"usage"` value (both make
the dict branch yield zeros in the source). -/
inductive Response where
  | noneV : Response
  | obj (usage : Option UsageObj) (model : Option String) : Response
  | dict (usage : Option UsageObj) (model : Option String) : Response
deriving DecidableEq

/-- Python's `a or b` where the operands are Python values that are either
`None` or integers: `None` and `0` are falsy. -/
def pyOr (a b : Option ℤ) : Option ℤ :=
  match a with
  | some v => if v = 0 then b else some v
  | none => b

/-- `int(x)`: the identity on an integer, a raised `TypeError` on `None`. -/
def pyInt : Option ℤ → Except Unit ℤ
  | none => Except.error ()
  | some v => Except.ok v

/-- The `or`-chain fallback shared by the attribute branch and the dict
branch of `_extract_tokens`:
`int(input_tokens or prompt_tokens-default-0)` then
`int(output_tokens or completion_tokens-default-0)`, evaluated left to
right, so a `None` surviving the chain (a token field present with value
`None`) raises `TypeError`. -/
def orChainPair (inp prompt out completion : PyField) : Except Unit (ℤ × ℤ) :=
  match pyInt (pyOr inp.getOrNone prompt.getOrZero) with
  | Except.error e => Except.error e
  | Except.ok i =>
    match pyInt (pyOr out.getOrNone completion.getOrZero) with
    | Except.error e => Except.error e
    | Except.ok o => Except.ok (i, o)

/-- `_extract_tokens`: `(prompt_tokens, completion_tokens)` pair first, then
`(input_tokens, output_tokens)` — a pair counts only when both fields are
present with non-`None` values — then the truthiness-based `or`-chain
fallback, which can raise `TypeError` via `int(None)`; dict responses go
straight to the fallback pair; everything else is `(0, 0)`. -/
def extract_tokens : Response → Except Unit (ℤ × ℤ)
  | Response.noneV => Except.ok (0, 0)
  | Response.obj usage _ =>
    match usage with
    | some u =>
      match u.prompt_tokens.getOrNone, u.completion_tokens.getOrNone with
      | some p, some c => Except.ok (p, c)
      | _, _ =>
        match u.input_tokens.getOrNone, u.output_tokens.getOrNone with
        | some i, some o => Except.ok (i, o)
        | _, _ =>
          orChainPair u.input_tokens u.prompt_tokens
            u.output_tokens u.completion_tokens
    | none => Except.ok (0, 0)
  | Response.dict usage _ =>
    match usage with
    | some u =>
      orChainPair u.input_tokens u.prompt_tokens
        u.output_tokens u.completion_tokens
    | none => Except.ok (0, 0)

/-- `_extract_model`: a truthy `model` attribute wins (so an empty-string
attribute falls through, and an object is not a dict, giving `None`);
a dict returns its `"model"` value untested. -/
def extract_model : Response → Option String
  | Response.noneV => none
  | Response.obj _ m =>
    match m with
    | some v => if v = "" then none else some v
    | none => none
  | Response.dict _ m => m

/-- Python's `a or b` where `a` is an optional string (empty string falsy). -/
def pyOrStr (a : Option String) (b : String) : String :=
  match a with
  | some v => if v = "" then b else v
  | none => b

/-- The mutable holder yielded by `spending` (`SpendContext.__init__`
zeroes both counters). -/
structure SpendContext where
  input_tokens : ℤ
  output_tokens : ℤ
deriving DecidableEq

/-- The freshly-constructed `SpendContext()`. -/
def initCtx : SpendContext := ⟨0, 0⟩

/-- How one invocation of a `track`-wrapped callable ends: the wrapped
result returned unchanged, the wrapped operation's own failure propagated,
or a `TypeError` raised by `int(None)` during token extraction. -/
inductive TrackOutcome (ε : Type) where
  | ok (r : Response) : TrackOutcome ε
  | funcErr (e : ε) : TrackOutcome ε
  | typeErr : TrackOutcome ε

/-- The tail of the wrapper body once token extraction has succeeded:
derive model/provider/cost and log one record via `log_call` (which,
called without metadata, cannot fail — the insert is inlined). -/
def trackLog (model : String) (label provider : Option String)
    (funcName caller_file caller_function : String) (result : Response)
    (tk : ℤ × ℤ) (elapsed now : ℚ) (s : SpendStore) : SpendStore :=
  let detected_model := pyOrStr (extract_model result) model
  let detected_provider := pyOrStr provider (detect_provider detected_model)
  let cost := calculate_cost detected_model tk.1 tk.2
  (insertRecord now detected_provider detected_model
      (some (pyOrStr label funcName)) (some caller_file) (some caller_function)
      tk.1 tk.2 cost elapsed none s).1

/-- One invocation of a `track`-wrapped callable.  `funcResult` is the
outcome of `func(*args, **kwargs)`: on an exception the wrapper body is
abandoned at that line (nothing is logged, the failure propagates).  On a
result, `_extract_tokens(result)` runs next: if it raises `TypeError`, that
failure propagates with nothing logged and the result is not returned;
otherwise one record is logged and the result is returned unchanged. -/
def track {ε : Type} (model : String) (label provider : Option String)
    (funcName caller_file caller_function : String)
    (funcResult : Except ε Response) (elapsed now : ℚ) (s : SpendStore) :
    SpendStore × TrackOutcome ε :=
  match funcResult with
  | Except.error e => (s, TrackOutcome.funcErr e)
  | Except.ok result =>
    match extract_tokens result with
    | Except.error _ => (s, TrackOutcome.typeErr)
    | Except.ok tk =>
      (trackLog model label provider funcName caller_file caller_function
        result tk elapsed now s,
       TrackOutcome.ok result)

/-- One use of the `spending` context manager.  `body` is the guarded block:
it transforms the yielded holder and either completes (`Except.ok ()`) or
raises; the `finally` block then always logs exactly one record from the
holder's final counts and the scope's elapsed time, after which the block's
outcome propagates.  `log_call` is invoked without metadata, so it cannot
fail and the insert is inlined. -/
def spending {ε : Type} (model : String) (label provider : Option String)
    (caller_file caller_function : String)
    (body : SpendContext → SpendContext × Except ε Unit)
    (elapsed now : ℚ) (s : SpendStore) : SpendStore × Except ε Unit :=
  let res := body initCtx
  let ctx := res.1
  let detected_provider := pyOrStr provider (detect_provider model)
  let cost := calculate_cost model ctx.input_tokens ctx.output_tokens
  ((insertRecord now detected_provider model label
      (some caller_file) (some caller_function)
      ctx.input_tokens ctx.output_tokens cost elapsed none s).1,
    res.2)

-- ------------------------------------------------------------------
-- Helper lemmas
-- ------------------------------------------------------------------

/-- In a list sorted descending by `f`, the first element `find?` accepts
has maximal `f` among all accepted elements. -/
theorem find_max_of_sorted {α β : Type} [LinearOrder β] (f : α → β) :
    ∀ (l : List α), l.Sorted (descBy f) → ∀ (p : α → Bool) (k : α),
      l.find? p = some k → ∀ k' ∈ l, p k' = true → f k' ≤ f k
  | [], _, _, _, h => by simp at h
  | a :: t, hs, p, k, hfind => by
    intro k' hk' hpk'
    by_cases ha : p a = true
    · rw [List.find?_cons_of_pos _ ha] at hfind
      cases hfind
      rcases List.mem_cons.mp hk' with rfl | hmem
      · exact le_refl _
      · exact List.rel_of_sorted_cons hs _ hmem
    · rw [List.find?_cons_of_neg _ ha] at hfind
      rcases List.mem_cons.mp hk' with rfl | hmem
      · exact absurd hpk' ha
      · exact find_max_of_sorted f t hs.of_cons p k hfind k' hmem hpk'

/-- An association-list lookup of a present key succeeds. -/
theorem lookup_isSome : ∀ (l : List (String × PriceEntry)) (k : String),
    k ∈ l.map Prod.fst →
    ((l.find? (fun kv => kv.1 == k)).map (fun kv => kv.2)).isSome = true
  | [], _, h => by simp at h
  | (a, b) :: t, k, h => by
    by_cases hak : (a == k) = true
    · rw [List.find?_cons_of_pos t
        (show (fun kv : String × PriceEntry => kv.1 == k) (a, b) = true from hak)]
      rfl
    · have hmem : k ∈ t.map Prod.fst := by
        rcases List.mem_cons.mp h with heq | hmem
        · exact absurd (beq_iff_eq.mpr heq.symm) hak
        · exact hmem
      rw [List.find?_cons_of_neg t
        (show ¬ (fun kv : String × PriceEntry => kv.1 == k) (a, b) = true from hak)]
      exact lookup_isSome t k hmem

/-- `SORTED_MODELS` is sorted descending by length. -/
theorem sorted_SORTED_MODELS : SORTED_MODELS.Sorted (descBy String.length) :=
  List.sorted_insertionSort _ _

/-- `SORTED_MODELS` holds exactly the known model identifiers. -/
theorem mem_SORTED_MODELS {k : String} :
    k ∈ SORTED_MODELS ↔ k ∈ PRICING.map Prod.fst :=
  List.mem_insertionSort _

-- ------------------------------------------------------------------
-- C4, C5, C10 — pricing resolution and cost
-- ------------------------------------------------------------------

/-- C4: `get_model_pricing` follows the stated priority order: every known
identifier resolves to its exact table entry; otherwise, among known
identifiers that are substrings of the given name, the longest wins (so
"gpt-4o-mini-2024-07-18" resolves to the "gpt-4o-mini" entry); otherwise,
among known identifiers of which the given name is a substring, the longest
wins; a name matching none of these ("no-such-model-xyz") resolves to
absent rather than an error. -/
theorem C4_resolvePrice_priority :
    (∀ kv ∈ PRICING, get_model_pricing kv.1 = some kv.2)
    ∧ (∀ m : String, pricingLookup m = none →
        ∀ k₀ ∈ PRICING.map Prod.fst, py_in k₀ m = true →
        ∃ k, py_in k m = true ∧ (pricingLookup k).isSome = true
          ∧ get_model_pricing m = pricingLookup k
          ∧ ∀ k' ∈ PRICING.map Prod.fst, py_in k' m = true →
              k'.length ≤ k.length)
    ∧ (∀ m : String, pricingLookup m = none →
        (∀ k' ∈ PRICING.map Prod.fst, py_in k' m = false) →
        ∀ k₀ ∈ PRICING.map Prod.fst, py_in m k₀ = true →
        ∃ k, py_in m k = true ∧ (pricingLookup k).isSome = true
          ∧ get_model_pricing m = pricingLookup k
          ∧ ∀ k' ∈ PRICING.map Prod.fst, py_in m k' = true →
              k'.length ≤ k.length)
    ∧ get_model_pricing "gpt-4o-mini-2024-07-18" = pricingLookup "gpt-4o-mini"
    ∧ get_model_pricing "no-such-model-xyz" = none := by
  refine ⟨?_, ?_, ?_, rfl, rfl⟩
  · intro kv h
    fin_cases h <;> rfl
  · intro m hm k₀ hk₀ hpy
    cases hfind : SORTED_MODELS.find? (fun known => py_in known m) with
    | none =>
      exact absurd hpy
        (List.find?_eq_none.mp hfind k₀ (mem_SORTED_MODELS.mpr hk₀))
    | some k =>
      have hkmem : k ∈ SORTED_MODELS := List.mem_of_find?_eq_some hfind
      refine ⟨k, List.find?_some (p := fun known => py_in known m) hfind,
        lookup_isSome PRICING k (mem_SORTED_MODELS.mp hkmem), ?_, ?_⟩
      · unfold get_model_pricing
        rw [hm, hfind]
      · intro k' hk' hpk'
        exact find_max_of_sorted String.length SORTED_MODELS
          sorted_SORTED_MODELS _ k hfind k' (mem_SORTED_MODELS.mpr hk') hpk'
  · intro m hm hnone k₀ hk₀ hpy
    have hfind1 : SORTED_MODELS.find? (fun known => py_in known m) = none := by
      apply List.find?_eq_none.mpr
      intro x hx
      simp [hnone x (mem_SORTED_MODELS.mp hx)]
    cases hfind : SORTED_MODELS.find? (fun known => py_in m known) with
    | none =>
      exact absurd hpy
        (List.find?_eq_none.mp hfind k₀ (mem_SORTED_MODELS.mpr hk₀))
    | some k =>
      have hkmem : k ∈ SORTED_MODELS := List.mem_of_find?_eq_some hfind
      refine ⟨k, List.find?_some (p := fun known => py_in m known) hfind,
        lookup_isSome PRICING k (mem_SORTED_MODELS.mp hkmem), ?_, ?_⟩
      · unfold get_model_pricing
        rw [hm, hfind1, hfind]
      · intro k' hk' hpk'
        exact find_max_of_sorted String.length SORTED_MODELS
          sorted_SORTED_MODELS _ k hfind k' (mem_SORTED_MODELS.mpr hk') hpk'

/-- Witness for C4: the longest-substring rule applied to
"gpt-4o-mini-2024-07-18". -/
theorem C4_witness :
    ∃ k, py_in k "gpt-4o-mini-2024-07-18" = true
      ∧ (pricingLookup k).isSome = true
      ∧ get_model_pricing "gpt-4o-mini-2024-07-18" = pricingLookup k
      ∧ ∀ k' ∈ PRICING.map Prod.fst, py_in k' "gpt-4o-mini-2024-07-18" = true →
          k'.length ≤ k.length :=
  C4_resolvePrice_priority.2.1 "gpt-4o-mini-2024-07-18" rfl
    "gpt-4o-mini" (by decide) rfl

/-- C5: `calculate_cost` is the per-million-token linear formula for every
priced model, `0` for every unpriced model, and takes the claimed values on
the four given inputs. -/
theorem C5_computeCost :
    (∀ (m : String) (i o : ℤ) (p : PriceEntry), get_model_pricing m = some p →
        calculate_cost m i o =
          (i : ℚ) / 1000000 * p.input + (o : ℚ) / 1000000 * p.output)
    ∧ (∀ (m : String) (i o : ℤ), get_model_pricing m = none →
        calculate_cost m i o = 0)
    ∧ calculate_cost "gpt-4o" 1000000 1000000 = 12.50
    ∧ calculate_cost "claude-sonnet-4" 500000 250000 = 5.25
    ∧ (∀ m : String, calculate_cost m 0 0 = 0)
    ∧ calculate_cost "unknown-model" 100000 100000 = 0 := by
  refine ⟨?_, ?_, ?_, ?_, ?_, ?_⟩
  · intro m i o p hp
    unfold calculate_cost
    rw [hp]
  · intro m i o hp
    unfold calculate_cost
    rw [hp]
  · have h : get_model_pricing "gpt-4o" = some ⟨2.50, 10.00⟩ := rfl
    unfold calculate_cost
    rw [h]
    norm_num
  · have h : get_model_pricing "claude-sonnet-4" = some ⟨3.00, 15.00⟩ := rfl
    unfold calculate_cost
    rw [h]
    norm_num
  · intro m
    unfold calculate_cost
    cases get_model_pricing m with
    | none => rfl
    | some p => push_cast; ring
  · have h : get_model_pricing "unknown-model" = none := rfl
    unfold calculate_cost
    rw [h]

/-- Witness for C5: the unpriced-model clause applied to a concrete name. -/
theorem C5_witness : calculate_cost "unknown-model" 5 7 = 0 :=
  C5_computeCost.2.1 "unknown-model" 5 7 rfl

/-- C10: the empty model name resolves to a present entry — that of the
longest known identifier, "claude-3-5-sonnet-20241022" — because the empty
string is a substring of every identifier. -/
theorem C10_empty_name_resolves :
    get_model_pricing "" = pricingLookup "claude-3-5-sonnet-20241022"
    ∧ (get_model_pricing "").isSome = true
    ∧ ∀ k ∈ PRICING.map Prod.fst,
        k.length ≤ ("claude-3-5-sonnet-20241022" : String).length := by
  refine ⟨rfl, rfl, ?_⟩
  decide

/-- Witness for C10: the maximal-length clause applied to a concrete key. -/
theorem C10_witness :
    ("gpt-4o" : String).length ≤ ("claude-3-5-sonnet-20241022" : String).length :=
  C10_empty_name_resolves.2.2 "gpt-4o" (by decide)

-- ------------------------------------------------------------------
-- C1 — track on failure (corrected)
-- ------------------------------------------------------------------

/-- Counterexample for C1: when the wrapped operation raises, the `track`
wrapper has no try/finally around `func(*args, **kwargs)`, so the claim that
a zero-token record is logged (or attempted) before the failure propagates
is false — the store receives no record at all. -/
theorem C1_counterexample :
    (track "gpt-4o" none none "call_api" "app.py" "main"
        (Except.error () : Except Unit Response) 5 0 ⟨1, []⟩).1.calls.length = 0
    ∧ (track "gpt-4o" none none "call_api" "app.py" "main"
        (Except.error () : Except Unit Response) 5 0 ⟨1, []⟩).2
      = TrackOutcome.funcErr () :=
  ⟨rfl, rfl⟩

/-- C1 (amended): a `track`-wrapped callable propagates a failure of the
wrapped operation unchanged to the original caller and logs no record for
the failed invocation.  When the wrapped operation returns normally, token
extraction runs next: if it succeeds, exactly one record is appended and
the result is passed through unchanged; if it raises `TypeError` (a token
field present with value `None`), that failure propagates with nothing
logged and the result is not returned. -/
theorem C1_track_amended {ε : Type} (model : String)
    (label provider : Option String)
    (funcName caller_file caller_function : String) (elapsed now : ℚ)
    (s : SpendStore) :
    (∀ e : ε, track model label provider funcName caller_file caller_function
        (Except.error e) elapsed now s = (s, TrackOutcome.funcErr e))
    ∧ (∀ (result : Response) (tk : ℤ × ℤ),
        extract_tokens result = Except.ok tk →
        (∃ r : CallRecord,
          (track model label provider funcName caller_file caller_function
              (Except.ok result : Except ε Response) elapsed now s).1.calls
            = s.calls ++ [r])
        ∧ (track model label provider funcName caller_file caller_function
            (Except.ok result : Except ε Response) elapsed now s).1.calls.length
            = s.calls.length + 1
        ∧ (track model label provider funcName caller_file caller_function
            (Except.ok result : Except ε Response) elapsed now s).2
            = TrackOutcome.ok result)
    ∧ (∀ result : Response,
        extract_tokens result = Except.error () →
        track model label provider funcName caller_file caller_function
            (Except.ok result : Except ε Response) elapsed now s
          = (s, TrackOutcome.typeErr)) := by
  refine ⟨fun e => rfl, ?_, ?_⟩
  · intro result tk htk
    have h : track model label provider funcName caller_file caller_function
        (Except.ok result : Except ε Response) elapsed now s
        = (trackLog model label provider funcName caller_file caller_function
            result tk elapsed now s, TrackOutcome.ok result) := by
      simp only [track, htk]
    rw [h]
    exact ⟨⟨_, rfl⟩, by simp [trackLog, insertRecord], rfl⟩
  · intro result herr
    simp only [track, herr]

/-- Witness for C1: the successful-extraction clause at a concrete
response. -/
theorem C1_witness :
    (∃ r : CallRecord,
      (track "gpt-4o" none none "call_api" "app.py" "main"
          (Except.ok Response.noneV : Except Unit Response) 5 0
          ⟨1, []⟩).1.calls
        = (⟨1, []⟩ : SpendStore).calls ++ [r])
    ∧ (track "gpt-4o" none none "call_api" "app.py" "main"
        (Except.ok Response.noneV : Except Unit Response) 5 0
        ⟨1, []⟩).1.calls.length
        = (⟨1, []⟩ : SpendStore).calls.length + 1
    ∧ (track "gpt-4o" none none "call_api" "app.py" "main"
        (Except.ok Response.noneV : Except Unit Response) 5 0
        ⟨1, []⟩).2 = TrackOutcome.ok Response.noneV :=
  (C1_track_amended "gpt-4o" none none "call_api" "app.py" "main" 5 0
    ⟨1, []⟩).2.1 Response.noneV (0, 0) rfl

-- ------------------------------------------------------------------
-- C2 — spending logs exactly one record on every exit path
-- ------------------------------------------------------------------

/-- C2: every use of the `spending` scope appends exactly one record on
scope exit — whether the guarded block completes or raises — carrying the
token counts set on the yielded holder during the scope and the elapsed
wall time of the whole scope; the block's outcome then propagates
unchanged.  In particular a scope that sets 200/50 tokens and raises still
produces exactly one record with those counts. -/
theorem C2_spending_exactly_one {ε : Type} (model : String)
    (label provider : Option String) (caller_file caller_function : String)
    (body : SpendContext → SpendContext × Except ε Unit) (elapsed now : ℚ)
    (s : SpendStore) :
    ((spending model label provider caller_file caller_function body
        elapsed now s).1.calls
      = s.calls ++
        [⟨s.nextId, now, pyOrStr provider (detect_provider model), model,
          label, some caller_file, some caller_function,
          (body initCtx).1.input_tokens, (body initCtx).1.output_tokens,
          calculate_cost model (body initCtx).1.input_tokens
            (body initCtx).1.output_tokens,
          elapsed, none⟩])
    ∧ (spending model label provider caller_file caller_function body
        elapsed now s).1.calls.length = s.calls.length + 1
    ∧ (spending model label provider caller_file caller_function body
        elapsed now s).2 = (body initCtx).2
    ∧ ((spending "gpt-4o" (some "err") none "app.py" "main"
        (fun _ => (⟨200, 50⟩, (Except.error () : Except Unit Unit)))
        3 0 ⟨1, []⟩).1.calls.map
          (fun r => (r.input_tokens, r.output_tokens)) = [(200, 50)])
    ∧ (spending "gpt-4o" (some "err") none "app.py" "main"
        (fun _ => (⟨200, 50⟩, (Except.error () : Except Unit Unit)))
        3 0 ⟨1, []⟩).2 = Except.error () := by
  refine ⟨rfl, ?_, rfl, rfl, rfl⟩
  show (s.calls ++ [_]).length = s.calls.length + 1
  simp

-- ------------------------------------------------------------------
-- C3 — metadata serialization failure in log_call (corrected)
-- ------------------------------------------------------------------

/-- Counterexample for C3: `log_call` computes
`json.dumps(metadata) if metadata else None` with no exception handling, so
a metadata map whose serialization raises aborts the whole call — the
record is not persisted at all, contradicting the claim that it is
persisted with metadata absent. -/
theorem C3_counterexample :
    log_call 0 "openai" "gpt-4o" none none none 100 50 1 2
      (some ⟨true, Except.error ()⟩) ⟨1, []⟩ = Except.error () :=
  rfl

/-- C3 (amended): with no metadata (or an empty map) the record is stored
with metadata absent; with serializable metadata the record is stored with
the serialized string; but when serialization of a non-empty metadata map
fails, `log_call` raises and the record is not persisted — serialization
failure is fatal to the whole record. -/
theorem C3_log_call_amended (now : ℚ) (provider model : String)
    (label file function : Option String) (input_tokens output_tokens : ℤ)
    (cost_usd duration_ms : ℚ) (s : SpendStore) :
    (log_call now provider model label file function input_tokens
        output_tokens cost_usd duration_ms none s
      = Except.ok (insertRecord now provider model label file function
          input_tokens output_tokens cost_usd duration_ms none s))
    ∧ (∀ m : MetaMap, m.nonempty = false →
        log_call now provider model label file function input_tokens
            output_tokens cost_usd duration_ms (some m) s
          = Except.ok (insertRecord now provider model label file function
              input_tokens output_tokens cost_usd duration_ms none s))
    ∧ (∀ (m : MetaMap) (str : String), m.nonempty = true →
        m.dumps = Except.ok str →
        log_call now provider model label file function input_tokens
            output_tokens cost_usd duration_ms (some m) s
          = Except.ok (insertRecord now provider model label file function
              input_tokens output_tokens cost_usd duration_ms (some str) s))
    ∧ (∀ (m : MetaMap) (e : Unit), m.nonempty = true →
        m.dumps = Except.error e →
        log_call now provider model label file function input_tokens
            output_tokens cost_usd duration_ms (some m) s
          = Except.error e) := by
  refine ⟨rfl, ?_, ?_, ?_⟩
  · intro m hm
    simp [log_call, serialize_metadata, hm]
  · intro m str hm hd
    simp [log_call, serialize_metadata, hm, hd, Except.map]
  · intro m e hm hd
    simp [log_call, serialize_metadata, hm, hd, Except.map]

/-- Witness for C3: the failure clause applied to a concrete failing map. -/
theorem C3_witness :
    log_call 1 "anthropic" "claude-sonnet-4" none none none 10 20 3 4
      (some ⟨true, Except.error ()⟩) ⟨5, []⟩ = Except.error () :=
  (C3_log_call_amended 1 "anthropic" "claude-sonnet-4" none none none
      10 20 3 4 ⟨5, []⟩).2.2.2 ⟨true, Except.error ()⟩ () rfl rfl

-- ------------------------------------------------------------------
-- C6 — token extraction (corrected)
-- ------------------------------------------------------------------

/-- Counterexample for C6: a usage object exposing only `prompt_tokens = 5`
has no pair with both fields present, so the claim says the extractor
returns (0, 0) — but the generic fallback returns (5, 0); worse, the claim
says extraction never fails, but a dict usage whose `prompt_tokens` key is
present with value `None` makes the fallback compute `int(None)`, raising
`TypeError`. -/
theorem C6_counterexample :
    extract_tokens (Response.obj
        (some ⟨PyField.intVal 5, PyField.absent, PyField.absent,
          PyField.absent⟩) none)
      = Except.ok (5, 0)
    ∧ (Except.ok ((5 : ℤ), (0 : ℤ)) : Except Unit (ℤ × ℤ))
        ≠ Except.ok ((0 : ℤ), (0 : ℤ))
    ∧ extract_tokens (Response.dict
        (some ⟨PyField.noneVal, PyField.absent, PyField.absent,
          PyField.absent⟩) none)
      = Except.error () := by
  refine ⟨rfl, ?_, rfl⟩
  simp

/-- C6 (amended): `_extract_tokens` is not total.  An absent response or
absent/non-dict usage yields (0, 0); an attribute-style usage is checked
for (prompt_tokens, completion_tokens) then (input_tokens, output_tokens),
a pair counting only when both fields are present with non-`None` values,
and the first complete pair wins; when neither pair is complete it falls
back to `int(input_tokens or prompt_tokens-default-0)` /
`int(output_tokens or completion_tokens-default-0)` (`None` and zero are
falsy) — which yields partial values rather than (0, 0), and raises
`TypeError` when the chosen operand is a field present with value `None`;
a dict-style usage applies that fallback chain directly, with the same
`TypeError` possibility. -/
theorem C6_extract_tokens_amended :
    extract_tokens Response.noneV = Except.ok (0, 0)
    ∧ (∀ m, extract_tokens (Response.obj none m) = Except.ok (0, 0))
    ∧ (∀ m, extract_tokens (Response.dict none m) = Except.ok (0, 0))
    ∧ (∀ (u : UsageObj) (m : Option String) (p c : ℤ),
        u.prompt_tokens.getOrNone = some p →
        u.completion_tokens.getOrNone = some c →
        extract_tokens (Response.obj (some u) m) = Except.ok (p, c))
    ∧ (∀ (u : UsageObj) (m : Option String) (i o : ℤ),
        (u.prompt_tokens.getOrNone = none ∨
          u.completion_tokens.getOrNone = none) →
        u.input_tokens.getOrNone = some i →
        u.output_tokens.getOrNone = some o →
        extract_tokens (Response.obj (some u) m) = Except.ok (i, o))
    ∧ (∀ (u : UsageObj) (m : Option String),
        (u.prompt_tokens.getOrNone = none ∨
          u.completion_tokens.getOrNone = none) →
        (u.input_tokens.getOrNone = none ∨
          u.output_tokens.getOrNone = none) →
        extract_tokens (Response.obj (some u) m)
          = orChainPair u.input_tokens u.prompt_tokens
              u.output_tokens u.completion_tokens)
    ∧ (∀ (u : UsageObj) (m : Option String),
        extract_tokens (Response.dict (some u) m)
          = orChainPair u.input_tokens u.prompt_tokens
              u.output_tokens u.completion_tokens)
    ∧ extract_tokens (Response.obj
        (some ⟨PyField.noneVal, PyField.absent, PyField.absent,
          PyField.absent⟩) none)
      = Except.error () := by
  refine ⟨rfl, fun m => rfl, fun m => rfl, ?_, ?_, ?_, fun u m => rfl, rfl⟩
  · intro u m p c hp hc
    obtain ⟨pt, ct, it, ot⟩ := u
    rcases pt with _ | _ | v <;> rcases ct with _ | _ | w <;>
      first
        | rfl
        | (simp_all [PyField.getOrNone]
           try rfl)
  · intro u m i o h1 hi ho
    obtain ⟨pt, ct, it, ot⟩ := u
    rcases it with _ | _ | x <;> rcases ot with _ | _ | y <;>
      rcases pt with _ | _ | v <;> rcases ct with _ | _ | w <;>
      first
        | rfl
        | (simp_all [PyField.getOrNone]
           try rfl)
  · intro u m h1 h2
    obtain ⟨pt, ct, it, ot⟩ := u
    rcases pt with _ | _ | v <;> rcases ct with _ | _ | w <;>
      rcases it with _ | _ | x <;> rcases ot with _ | _ | y <;>
      first
        | rfl
        | (simp_all [PyField.getOrNone]
           try rfl)

/-- Witness for C6: the openai-style pair takes priority when both pairs
are present with non-`None` values. -/
theorem C6_witness :
    extract_tokens
      (Response.obj (some ⟨PyField.intVal 7, PyField.intVal 3,
        PyField.intVal 100, PyField.intVal 200⟩) none)
      = Except.ok (7, 3) :=
  C6_extract_tokens_amended.2.2.2.1
    ⟨PyField.intVal 7, PyField.intVal 3, PyField.intVal 100,
      PyField.intVal 200⟩ none 7 3 rfl rfl

-- ------------------------------------------------------------------
-- C9 — clear
-- ------------------------------------------------------------------

/-- C9: `clear` with no cutoff deletes every record (a subsequent total
reports zero calls) and returns the exact count removed; `clear` with a
cutoff deletes exactly the records strictly older than `now − days` and
returns the exact count removed, so a record timestamped `now` survives
`clear(olderThanDays=d)` for any non-negative `d`. -/
theorem C9_clear (now : ℚ) (days2 d : ℤ) (s : SpendStore) :
    (clear now none s).1.calls = []
    ∧ (clear now none s).2 = s.calls.length
    ∧ (get_total now days2 (clear now none s).1).total_calls = 0
    ∧ (∀ r : CallRecord, r ∈ (clear now (some d) s).1.calls ↔
        r ∈ s.calls ∧ ¬ r.timestamp < cutoffTime now d)
    ∧ (clear now (some d) s).2
        = (s.calls.filter
            (fun r => decide (r.timestamp < cutoffTime now d))).length
    ∧ (∀ r ∈ s.calls, now ≤ r.timestamp → 0 ≤ d →
        r ∈ (clear now (some d) s).1.calls) := by
  refine ⟨rfl, rfl, rfl, ?_, rfl, ?_⟩
  · intro r
    simp [clear, List.mem_filter]
  · intro r hr hts hd
    simp only [clear, List.mem_filter]
    refine ⟨hr, ?_⟩
    have hd' : (0 : ℚ) ≤ (d : ℚ) := by exact_mod_cast hd
    have h1 : cutoffTime now d ≤ now := by
      simp only [cutoffTime]
      linarith
    simp only [decide_eq_true_eq]
    exact not_lt.mpr (le_trans h1 hts)

/-- A record inserted at time 100 (used by the C9 witness). -/
def freshRec : CallRecord :=
  ⟨1, 100, "openai", "gpt-4o", none, none, none, 1, 1, 1, 1, none⟩

/-- Witness for C9: a just-inserted record survives `clear(olderThanDays=7)`. -/
theorem C9_witness :
    freshRec ∈ (clear 100 (some 7) ⟨2, [freshRec]⟩).1.calls :=
  (C9_clear 100 30 7 ⟨2, [freshRec]⟩).2.2.2.2.2 freshRec (by simp)
    (le_refl 100) (by decide)

-- ------------------------------------------------------------------
-- C7 — export (corrected: a 3650-day window, not the full set)
-- ------------------------------------------------------------------

/-- A record 3651 days older than the export time (timestamp −1 at
`now = 3650`), used to refute C7's "no time filter" clause. -/
def staleRec : CallRecord :=
  ⟨1, -1, "openai", "gpt-4o", none, none, none, 1, 1, 1, 1, none⟩

/-- Counterexample for C7: the exports run `get_all_calls(days=365*10)`, a
3650-day lookback, not the full unfiltered record set — a store holding one
record 3651 days old exports zero records (and `export_csv` writes no file
at all), not one. -/
theorem C7_counterexample :
    (export_csv 3650 ⟨2, [staleRec]⟩).2
        ≠ (⟨2, [staleRec]⟩ : SpendStore).calls.length
    ∧ (export_csv 3650 ⟨2, [staleRec]⟩).1 = none := by
  have hcond : (decide (cutoffTime 3650 (365 * 10) ≤ staleRec.timestamp))
      = false := by
    rw [decide_eq_false_iff_not]
    norm_num [cutoffTime, staleRec]
  have hrec : recentCalls 3650 (365 * 10) ⟨2, [staleRec]⟩ = [] := by
    simp only [recentCalls]
    rw [List.filter_cons_of_neg (by simpa using hcond), List.filter_nil]
  have hall : get_all_calls 3650 (365 * 10) ⟨2, [staleRec]⟩ = [] := by
    unfold get_all_calls
    rw [hrec]
    rfl
  constructor
  · unfold export_csv
    rw [hall]
    simp [staleRec]
  · unfold export_csv
    rw [hall]
    rfl

/-- C7 (amended): `export_csv` / `export_json` serialize the records of the
trailing 3650-day (365×10) window, ordered by timestamp descending, and
return the exact number of records written; an empty result set writes zero
rows without error (`export_csv` writes no file at all); on a non-empty
result the CSV holds one header row with the full record field set and one
data row per exported record. -/
theorem C7_export_amended (now : ℚ) (s : SpendStore) :
    (export_csv now s).2 = (get_all_calls now (365 * 10) s).length
    ∧ (export_json now s).2 = (get_all_calls now (365 * 10) s).length
    ∧ (export_json now s).1 = get_all_calls now (365 * 10) s
    ∧ (get_all_calls now (365 * 10) s = [] → export_csv now s = (none, 0))
    ∧ (get_all_calls now (365 * 10) s ≠ [] →
        ∃ f, export_csv now s
            = (some f, (get_all_calls now (365 * 10) s).length)
          ∧ f.header = exportFields
          ∧ f.dataRows.length = (get_all_calls now (365 * 10) s).length)
    ∧ (∀ r : CallRecord, r ∈ get_all_calls now (365 * 10) s ↔
        r ∈ s.calls ∧ cutoffTime now (365 * 10) ≤ r.timestamp) := by
  refine ⟨?_, rfl, rfl, ?_, ?_, ?_⟩
  · unfold export_csv
    by_cases h : (get_all_calls now (365 * 10) s).isEmpty
    · rw [if_pos h, List.isEmpty_iff.mp h]
      rfl
    · rw [if_neg h]
  · intro h
    unfold export_csv
    rw [h]
    rfl
  · intro h
    unfold export_csv
    rw [if_neg (by simpa [List.isEmpty_iff] using h)]
    exact ⟨_, rfl, rfl, rfl⟩
  · intro r
    simp [get_all_calls, recentCalls, List.mem_filter]

/-- A record inside the export window (used by the C7 witness). -/
def expRec : CallRecord :=
  ⟨1, 4000, "openai", "gpt-4o", none, none, none, 1, 1, 1, 1, none⟩

/-- On the witness store, the export query returns exactly the one
in-window record. -/
theorem expStore_all : get_all_calls 4000 (365 * 10) ⟨2, [expRec]⟩ = [expRec] := by
  have hcond : (decide (cutoffTime 4000 (365 * 10) ≤ expRec.timestamp))
      = true := by
    rw [decide_eq_true_eq]
    norm_num [cutoffTime, expRec]
  have hrec : recentCalls 4000 (365 * 10) ⟨2, [expRec]⟩ = [expRec] := by
    simp only [recentCalls]
    rw [List.filter_cons_of_pos (by simpa using hcond), List.filter_nil]
  unfold get_all_calls
  rw [hrec]
  rfl

/-- Witness for C7: a non-empty in-window store exports a header plus one
data row. -/
theorem C7_witness :
    ∃ f, export_csv 4000 ⟨2, [expRec]⟩
        = (some f, (get_all_calls 4000 (365 * 10) ⟨2, [expRec]⟩).length)
      ∧ f.header = exportFields
      ∧ f.dataRows.length
          = (get_all_calls 4000 (365 * 10) ⟨2, [expRec]⟩).length :=
  (C7_export_amended 4000 ⟨2, [expRec]⟩).2.2.2.2.1
    (by rw [expStore_all]; simp)

-- ------------------------------------------------------------------
-- C8 — grouped, windowed, cost-ordered aggregation
-- ------------------------------------------------------------------

/-- C8: the grouped aggregation queries include exactly the records with
timestamp ≥ now − windowDays; the function query groups by the
(function, file) pair; each output row carries the per-group count and the
per-group sums of input tokens, output tokens and cost; rows come out
sorted descending by total cost, so the group with the highest summed cost
is first; and records with missing file/label values appear under the
"(unknown)" / "(unlabeled)" sentinel keys rather than being excluded. -/
theorem C8_grouped_aggregation (now : ℚ) (days : ℤ) (s : SpendStore) :
    (∀ r : CallRecord, r ∈ recentCalls now days s ↔
        r ∈ s.calls ∧ cutoffTime now days ≤ r.timestamp)
    ∧ (get_by_file now days s).Sorted (descBy FileRow.cost_usd)
    ∧ (get_by_function now days s).Sorted (descBy FunctionRow.cost_usd)
    ∧ (get_by_label now days s).Sorted (descBy LabelRow.cost_usd)
    ∧ (get_by_model now days s).Sorted (descBy ModelRow.cost_usd)
    ∧ (∀ row ∈ get_by_file now days s, ∃ k,
        k ∈ (recentCalls now days s).map (fun r => r.file) ∧
        row = mkFileRow k
          ((recentCalls now days s).filter (fun r => decide (r.file = k))))
    ∧ (∀ row ∈ get_by_function now days s, ∃ k,
        k ∈ (recentCalls now days s).map funcKey ∧
        row = mkFunctionRow k
          ((recentCalls now days s).filter (fun r => decide (funcKey r = k))))
    ∧ (∀ row₀ row, (get_by_file now days s).head? = some row₀ →
        row ∈ get_by_file now days s → row.cost_usd ≤ row₀.cost_usd)
    ∧ (∀ row₀ row, (get_by_function now days s).head? = some row₀ →
        row ∈ get_by_function now days s → row.cost_usd ≤ row₀.cost_usd)
    ∧ (∀ r ∈ recentCalls now days s, r.file = none →
        ∃ row ∈ get_by_file now days s, row.file = "(unknown)")
    ∧ (∀ r ∈ recentCalls now days s, r.label = none →
        ∃ row ∈ get_by_label now days s, row.label = "(unlabeled)") := by
  refine ⟨?_, ?_, ?_, ?_, ?_, ?_, ?_, ?_, ?_, ?_, ?_⟩
  · intro r
    simp [recentCalls, List.mem_filter]
  · unfold get_by_file
    exact List.sorted_insertionSort _ _
  · unfold get_by_function
    exact List.sorted_insertionSort _ _
  · unfold get_by_label
    exact List.sorted_insertionSort _ _
  · unfold get_by_model
    exact List.sorted_insertionSort _ _
  · intro row hrow
    unfold get_by_file at hrow
    rw [List.mem_insertionSort] at hrow
    obtain ⟨k, hk, hrow⟩ := List.mem_map.mp hrow
    exact ⟨k, List.mem_dedup.mp hk, hrow.symm⟩
  · intro row hrow
    unfold get_by_function at hrow
    rw [List.mem_insertionSort] at hrow
    obtain ⟨k, hk, hrow⟩ := List.mem_map.mp hrow
    exact ⟨k, List.mem_dedup.mp hk, hrow.symm⟩
  · intro row₀ row hhead hrow
    have hs : (get_by_file now days s).Sorted (descBy FileRow.cost_usd) := by
      unfold get_by_file
      exact List.sorted_insertionSort _ _
    cases hl : get_by_file now days s with
    | nil =>
      rw [hl] at hhead
      simp at hhead
    | cons a t =>
      rw [hl] at hhead hrow hs
      have ha : a = row₀ := by simpa using hhead
      subst ha
      rcases List.mem_cons.mp hrow with rfl | hmem
      · exact le_refl _
      · exact List.rel_of_sorted_cons hs _ hmem
  · intro row₀ row hhead hrow
    have hs : (get_by_function now days s).Sorted (descBy FunctionRow.cost_usd) := by
      unfold get_by_function
      exact List.sorted_insertionSort _ _
    cases hl : get_by_function now days s with
    | nil =>
      rw [hl] at hhead
      simp at hhead
    | cons a t =>
      rw [hl] at hhead hrow hs
      have ha : a = row₀ := by simpa using hhead
      subst ha
      rcases List.mem_cons.mp hrow with rfl | hmem
      · exact le_refl _
      · exact List.rel_of_sorted_cons hs _ hmem
  · intro r hr hfile
    refine ⟨mkFileRow none
      ((recentCalls now days s).filter (fun r => decide (r.file = none))), ?_, rfl⟩
    unfold get_by_file
    rw [List.mem_insertionSort]
    exact List.mem_map_of_mem _
      (List.mem_dedup.mpr (List.mem_map.mpr ⟨r, hr, hfile⟩))
  · intro r hr hlabel
    refine ⟨mkLabelRow none
      ((recentCalls now days s).filter (fun r => decide (r.label = none))), ?_, rfl⟩
    unfold get_by_label
    rw [List.mem_insertionSort]
    exact List.mem_map_of_mem _
      (List.mem_dedup.mpr (List.mem_map.mpr ⟨r, hr, hlabel⟩))

/-- A file-less in-window record (used by the C8 witness). -/
def wRec : CallRecord :=
  ⟨1, 100, "openai", "gpt-4o", none, none, none, 10, 20, 2, 1, none⟩

/-- The witness record is inside a 30-day window ending at time 100. -/
theorem wRec_recent : wRec ∈ recentCalls 100 30 ⟨2, [wRec]⟩ := by
  have hcond : (decide (cutoffTime 100 30 ≤ wRec.timestamp)) = true := by
    rw [decide_eq_true_eq]
    norm_num [cutoffTime, wRec]
  simp only [recentCalls, List.mem_filter]
  exact ⟨by simp, hcond⟩

/-- Witness for C8: a record with no file lands in the "(unknown)" group. -/
theorem C8_witness :
    ∃ row ∈ get_by_file 100 30 ⟨2, [wRec]⟩, row.file = "(unknown)" :=
  (C8_grouped_aggregation 100 30 ⟨2, [wRec]⟩).2.2.2.2.2.2.2.2.2.1
    wRec wRec_recent rfl

end LlmSpend
